import Mathlib

/-!
Verification development for the KServe torchserve image-transformer sample
(`docs/samples/v1beta1/transformer/torchserve_image_transformer/image_transformer/image_transformer.py`).

The Python module is shallowly embedded:
* JSON-like dynamic values (`Value`) model Python dicts / lists / numbers / strings;
  floats are idealised as rationals.
* `base64.b64decode` and `json.dumps` / `json.loads` are modelled executably,
  following the behaviour of the Python standard library on the inputs of interest.
* `PIL.Image.open` is external library code; it is kept abstract as a parameter
  `imageOpen : List Nat → Option (List (List Nat))` taking the decoded bytes to a
  grayscale pixel grid (the spec describes single-channel images), with `none` for
  bytes that are not a parseable image.
* The torchvision pipeline `Compose [ToTensor, Normalize((0.1307,), (0.3081,))]`
  is `image_processing`: scale each pixel by 1/255 into `[0, 1]`, then apply
  `(v - 0.1307) / 0.3081`, producing a 1×H×W nested list as `.tolist()` does.
* The tornado HTTP client is abstracted as a function `fetch : HttpRequest → HttpResponse`;
  `explain` additionally returns the list of outbound requests it issued so that
  claims about the outbound traffic are statable.
* Python exceptions are modelled by returning the unchanged state together with an
  error marker (`Dict × Option TransformError`), mirroring that an exception
  propagates before any later mutation happens.
-/

/-- Dynamic (JSON-like) values, modelling the Python objects that flow through
the transformer. Floats are idealised as rationals. -/
inductive Value : Type where
  | null : Value
  | bool (b : Bool) : Value
  | num (q : ℚ) : Value
  | str (s : String) : Value
  | arr (vs : List Value) : Value
  | obj (kvs : List (String × Value)) : Value

/-- A Python dict with string keys, as an association list (keys unique in practice). -/
abbrev Dict : Type := List (String × Value)

/-- Dictionary lookup: `d[k]`, `none` when the key is absent (Python `KeyError`). -/
def lookupKey (k : String) : Dict → Option Value
  | [] => none
  | (k2, v) :: rest => if k2 = k then some v else lookupKey k rest

/-- Dictionary assignment `d[k] = v`: replace the value at an existing key in
place, append the binding otherwise. -/
def setKey (k : String) (v : Value) : Dict → Dict
  | [] => [(k, v)]
  | (k2, v2) :: rest => if k2 = k then (k2, v) :: rest else (k2, v2) :: setKey k v rest

/-- Value of a standard base64 alphabet character, `none` for non-alphabet characters. -/
def b64val (c : Char) : Option Nat :=
  if 'A' ≤ c ∧ c ≤ 'Z' then some (c.toNat - 65)
  else if 'a' ≤ c ∧ c ≤ 'z' then some (c.toNat - 97 + 26)
  else if '0' ≤ c ∧ c ≤ '9' then some (c.toNat - 48 + 52)
  else if c = '+' then some 62
  else if c = '/' then some 63
  else none

/-- Turn a list of 6-bit groups (the non-padding part of a base64 payload) into
bytes: full quads give 3 bytes, a trailing triple 2 bytes, a trailing pair 1 byte;
a single trailing group is invalid. -/
def sextetsToBytes : List Nat → Option (List Nat)
  | [] => some []
  | [_] => none
  | [a, b] => some [a * 4 + b / 16]
  | [a, b, c] => some [a * 4 + b / 16, (b % 16) * 16 + c / 4]
  | a :: b :: c :: d :: rest =>
    match sextetsToBytes rest with
    | none => none
    | some tail => some ((a * 4 + b / 16) :: ((b % 16) * 16 + c / 4) :: ((c % 4) * 64 + d) :: tail)

/-- Model of Python `base64.b64decode` (default `validate=False`): characters
outside the alphabet and `=` are discarded, the remaining payload must consist of
quads with at most two `=` padding characters at the end, and is decoded to bytes;
`none` models `binascii.Error` (invalid padding). -/
def b64decode (s : String) : Option (List Nat) :=
  let kept := s.toList.filter (fun c => (b64val c).isSome || c = '=')
  let body := kept.takeWhile (fun c => c ≠ '=')
  let pad := kept.drop body.length
  if pad.all (fun c => c = '=') && pad.length ≤ 2 && (body.length + pad.length) % 4 = 0 then
    match body.mapM b64val with
    | none => none
    | some sextets =>
      if pad.length = 2 && body.length % 4 ≠ 2 then none
      else if pad.length = 1 && body.length % 4 ≠ 3 then none
      else sextetsToBytes sextets
  else none

/-- The torchvision pipeline `transforms.Compose([ToTensor(), Normalize((0.1307,), (0.3081,))])`
applied to a grayscale pixel grid: `ToTensor` scales each byte into `[0, 1]` by
dividing by 255 and adds the channel dimension, `Normalize` applies
`(v - 0.1307) / 0.3081` elementwise; the result is the 1×H×W nested list that
`.tolist()` produces. -/
def image_processing (img : List (List Nat)) : List (List (List ℚ)) :=
  [img.map (fun row => row.map (fun p => ((p : ℚ) / 255 - 1307 / 10000) / (3081 / 10000)))]

/-- Embed a 1×H×W tensor `.tolist()` result as a `Value`. -/
def tensorToValue (t : List (List (List ℚ))) : Value :=
  Value.arr (t.map (fun ch => Value.arr (ch.map (fun row => Value.arr (row.map Value.num)))))

/-- Error markers for the exceptions the preprocessing path can raise. -/
inductive TransformError : Type where
  | keyError : TransformError
  | typeError : TransformError
  | decodeError : TransformError
  | imageError : TransformError
deriving DecidableEq

/-- `image_transform(instance)`: decode the base64 `data` field, open it as an
image, run `image_processing` and assign the `.tolist()` result back to
`instance["data"]`. The pair returned is (instance after the call, raised
exception if any); every error path returns the instance unchanged because the
exception is raised before the assignment. `imageOpen` abstracts `PIL.Image.open`
over the decoded bytes. -/
def image_transform (imageOpen : List Nat → Option (List (List Nat))) (inst : Dict) :
    Dict × Option TransformError :=
  match lookupKey "data" inst with
  | none => (inst, some TransformError.keyError)
  | some (Value.str s) =>
    match b64decode s with
    | none => (inst, some TransformError.decodeError)
    | some bytes =>
      match imageOpen bytes with
      | none => (inst, some TransformError.imageError)
      | some img =>
        (setKey "data" (tensorToValue (image_processing img)) inst, none)
  | some _ => (inst, some TransformError.typeError)

/-- Map a fallible function over a list, stopping at the first error — the
semantics of a Python list comprehension whose element expression may raise. -/
def mapME {α β ε : Type} (f : α → Except ε β) : List α → Except ε (List β)
  | [] => Except.ok []
  | a :: rest =>
    match f a with
    | Except.error e => Except.error e
    | Except.ok b =>
      match mapME f rest with
      | Except.error e => Except.error e
      | Except.ok bs => Except.ok (b :: bs)

/-- Run `image_transform` on one element of the `instances` list: the element
must be a dict (otherwise `instance["data"]` raises a `TypeError`). -/
def transformValue (imageOpen : List Nat → Option (List (List Nat))) (v : Value) :
    Except TransformError Value :=
  match v with
  | Value.obj d =>
    match image_transform imageOpen d with
    | (d2, none) => Except.ok (Value.obj d2)
    | (_, some e) => Except.error e
  | _ => Except.error TransformError.typeError

/-- HTTP request headers, `none` modelling Python `None`. -/
abbrev Headers : Type := Option (List (String × String))

/-- The state of an `ImageTransformer` object after `__init__`: model name,
predictor host, explainer host and the fixed timeout. Hosts are `Option` since
the Python attributes may be `None`. -/
structure ImageTransformer : Type where
  name : String
  predictor_host : Option String
  explainer_host : Option String
  timeout : Nat

/-- `ImageTransformer.__init__(name, predictor_host)`: stores the name, sets both
`predictor_host` and `explainer_host` to the `predictor_host` argument, logs, and
fixes `timeout = 100`. -/
def ImageTransformer.init (name : String) (predictor_host : Option String) : ImageTransformer :=
  { name := name
    predictor_host := predictor_host
    explainer_host := predictor_host
    timeout := 100 }

/-- `ImageTransformer.preprocess(inputs, headers)`: build a fresh dict
`{'instances': [image_transform(instance) for instance in inputs['instances']]}`.
A missing `instances` key raises `KeyError`; a non-list value raises a
`TypeError` when iterated; an exception inside the comprehension propagates. -/
def ImageTransformer.preprocess (_t : ImageTransformer)
    (imageOpen : List Nat → Option (List (List Nat))) (inputs : Dict) (_headers : Headers) :
    Except TransformError Dict :=
  match lookupKey "instances" inputs with
  | some (Value.arr insts) =>
    match mapME (transformValue imageOpen) insts with
    | Except.ok outs => Except.ok [("instances", Value.arr outs)]
    | Except.error e => Except.error e
  | some _ => Except.error TransformError.typeError
  | none => Except.error TransformError.keyError

/-- `ImageTransformer.postprocess(inputs)`: returns its input unchanged. -/
def ImageTransformer.postprocess (_t : ImageTransformer) (inputs : Dict) : Dict :=
  inputs

/-- Escape one character for a JSON string literal, as `json.dumps` does for the
characters the transformer can meet. -/
def escapeChar (c : Char) : List Char :=
  if c = '"' then ['\\', '"']
  else if c = '\\' then ['\\', '\\']
  else if c = '\n' then ['\\', 'n']
  else if c = '\t' then ['\\', 't']
  else if c = '\r' then ['\\', 'r']
  else [c]

/-- JSON string literal for `s`. -/
def strRepr (s : String) : String :=
  "\"" ++ String.mk (s.toList.foldr (fun c acc => escapeChar c ++ acc) []) ++ "\""

/-- Serialize a rational: integers print as integers; the non-integral rationals
that idealise Python floats print as exact fractions. -/
def ratRepr (q : ℚ) : String :=
  if q.den = 1 then toString q.num else toString q.num ++ "/" ++ toString q.den

mutual

/-- Model of `json.dumps` with the default separators `", "` and `": "`. -/
def jsonDumps : Value → String
  | Value.null => "null"
  | Value.bool b => if b then "true" else "false"
  | Value.num q => ratRepr q
  | Value.str s => strRepr s
  | Value.arr vs => "[" ++ String.intercalate ", " (jsonDumpsArr vs) ++ "]"
  | Value.obj kvs => "\x7b" ++ String.intercalate ", " (jsonDumpsObj kvs) ++ "\x7d"

/-- Serialize the elements of a JSON array. -/
def jsonDumpsArr : List Value → List String
  | [] => []
  | v :: vs => jsonDumps v :: jsonDumpsArr vs

/-- Serialize the members of a JSON object. -/
def jsonDumpsObj : List (String × Value) → List String
  | [] => []
  | (k, v) :: kvs => (strRepr k ++ ": " ++ jsonDumps v) :: jsonDumpsObj kvs

end

/-- Whitespace skipped by the JSON reader. -/
def isJsonWs (c : Char) : Bool :=
  c = ' ' || c = '\n' || c = '\t' || c = '\r'

/-- Drop leading JSON whitespace. -/
def skipWs : List Char → List Char
  | [] => []
  | c :: cs => if isJsonWs c then skipWs cs else c :: cs

/-- Unescape one character after a backslash in a JSON string literal. -/
def unescapeChar (c : Char) : Option Char :=
  if c = '"' then some '"'
  else if c = '\\' then some '\\'
  else if c = '/' then some '/'
  else if c = 'n' then some '\n'
  else if c = 't' then some '\t'
  else if c = 'r' then some '\r'
  else none

/-- Read the characters of a JSON string literal after the opening quote,
returning the content and the input after the closing quote. -/
def readStrChars (fuel : Nat) (cs : List Char) : Option (List Char × List Char) :=
  match fuel, cs with
  | _, [] => none
  | 0, _ => none
  | fuel + 1, c :: rest =>
    if c = '"' then some ([], rest)
    else if c = '\\' then
      match rest with
      | [] => none
      | e :: rest2 =>
        match unescapeChar e with
        | none => none
        | some u =>
          match readStrChars fuel rest2 with
          | none => none
          | some (content, rest3) => some (u :: content, rest3)
    else
      match readStrChars fuel rest with
      | none => none
      | some (content, rest2) => some (c :: content, rest2)

/-- Numeric value of a digit sequence. -/
def digitsToNat (ds : List Char) : Nat :=
  ds.foldl (fun acc c => acc * 10 + (c.toNat - 48)) 0

/-- Read a JSON number (optional minus sign, digits, optional fraction),
returning its rational value and the remaining input. -/
def readNum (cs : List Char) : Option (ℚ × List Char) :=
  let (neg, cs1) :=
    match cs with
    | c :: rest => if c = '-' then (true, rest) else (false, cs)
    | [] => (false, cs)
  let intds := cs1.takeWhile Char.isDigit
  let cs2 := cs1.drop intds.length
  if intds.isEmpty then none
  else
    match cs2 with
    | '.' :: rest =>
      let fds := rest.takeWhile Char.isDigit
      if fds.isEmpty then none
      else
        let n : Nat := digitsToNat intds * 10 ^ fds.length + digitsToNat fds
        let i : Int := if neg then -(n : Int) else (n : Int)
        some (mkRat i (10 ^ fds.length), rest.drop fds.length)
    | _ =>
      let i : Int := if neg then -(digitsToNat intds : Int) else (digitsToNat intds : Int)
      some (mkRat i 1, cs2)

mutual

/-- Read one JSON value from the input (leading whitespace already skipped),
returning it and the remaining input. -/
def readValue (fuel : Nat) (cs : List Char) : Option (Value × List Char) :=
  match fuel with
  | 0 => none
  | fuel + 1 =>
    match cs with
    | [] => none
    | c :: rest =>
      if c = '"' then
        match readStrChars (rest.length + 1) rest with
        | none => none
        | some (content, rest2) => some (Value.str (String.mk content), rest2)
      else if c = '[' then
        match skipWs rest with
        | ']' :: rest2 => some (Value.arr [], rest2)
        | rest2 =>
          match readArrItems fuel rest2 with
          | none => none
          | some (vs, rest3) => some (Value.arr vs, rest3)
      else if c = '\x7b' then
        match skipWs rest with
        | '\x7d' :: rest2 => some (Value.obj [], rest2)
        | rest2 =>
          match readObjItems fuel rest2 with
          | none => none
          | some (kvs, rest3) => some (Value.obj kvs, rest3)
      else if c = 't' then
        match cs with
        | 't' :: 'r' :: 'u' :: 'e' :: rest2 => some (Value.bool true, rest2)
        | _ => none
      else if c = 'f' then
        match cs with
        | 'f' :: 'a' :: 'l' :: 's' :: 'e' :: rest2 => some (Value.bool false, rest2)
        | _ => none
      else if c = 'n' then
        match cs with
        | 'n' :: 'u' :: 'l' :: 'l' :: rest2 => some (Value.null, rest2)
        | _ => none
      else
        match readNum cs with
        | none => none
        | some (q, rest2) => some (Value.num q, rest2)

/-- Read the comma-separated items of a non-empty JSON array, up to and
including the closing bracket. -/
def readArrItems (fuel : Nat) (cs : List Char) : Option (List Value × List Char) :=
  match fuel with
  | 0 => none
  | fuel + 1 =>
    match readValue fuel cs with
    | none => none
    | some (v, rest) =>
      match skipWs rest with
      | ']' :: rest2 => some ([v], rest2)
      | ',' :: rest2 =>
        match readArrItems fuel (skipWs rest2) with
        | none => none
        | some (vs, rest3) => some (v :: vs, rest3)
      | _ => none

/-- Read the comma-separated members of a non-empty JSON object, up to and
including the closing brace. -/
def readObjItems (fuel : Nat) (cs : List Char) : Option (List (String × Value) × List Char) :=
  match fuel with
  | 0 => none
  | fuel + 1 =>
    match cs with
    | '"' :: rest =>
      match readStrChars (rest.length + 1) rest with
      | none => none
      | some (content, rest2) =>
        match skipWs rest2 with
        | ':' :: rest3 =>
          match readValue fuel (skipWs rest3) with
          | none => none
          | some (v, rest4) =>
            match skipWs rest4 with
            | '\x7d' :: rest5 => some ([(String.mk content, v)], rest5)
            | ',' :: rest5 =>
              match readObjItems fuel (skipWs rest5) with
              | none => none
              | some (kvs, rest6) => some ((String.mk content, v) :: kvs, rest6)
            | _ => none
        | _ => none
    | _ => none

end

/-- Model of `json.loads`: parse a complete JSON document, `none` modelling
`json.JSONDecodeError`. -/
def jsonLoads (s : String) : Option Value :=
  match readValue (s.length + 1) (skipWs s.toList) with
  | none => none
  | some (v, rest) => if skipWs rest = [] then some v else none

/-- An outbound HTTP request as issued through the tornado `AsyncHTTPClient`. -/
structure HttpRequest : Type where
  url : String
  method : String
  body : String
  request_timeout : Nat
deriving DecidableEq

/-- The upstream HTTP response: status code and body. -/
structure HttpResponse : Type where
  code : Nat
  body : String
deriving DecidableEq

/-- The exceptions `explain` can raise: `NotImplementedError`,
`tornado.web.HTTPError(status_code, reason)`, and `json.JSONDecodeError`. -/
inductive ExplainError : Type where
  | notImplementedError : ExplainError
  | httpError (status_code : Nat) (reason : String) : ExplainError
  | jsonDecodeError : ExplainError
deriving DecidableEq

/-- `EXPLAINER_URL_FORMAT = "http://{0}/v1/models/{1}:explain"` instantiated at a
host and model name. -/
def EXPLAINER_URL_FORMAT (host name : String) : String :=
  "http://" ++ host ++ "/v1/models/" ++ name ++ ":explain"

/-- The single outbound request `explain` builds when the explainer host is
`host`: a POST of the JSON-serialized request to the explainer URL with
`request_timeout = self.timeout`. -/
def explainRequest (t : ImageTransformer) (host : String) (request : Dict) : HttpRequest :=
  { url := EXPLAINER_URL_FORMAT host t.name
    method := "POST"
    body := jsonDumps (Value.obj request)
    request_timeout := t.timeout }

/-- `ImageTransformer.explain(request, headers)`: raise `NotImplementedError`
when no explainer host is set; otherwise POST the JSON-serialized request to the
explainer URL with `request_timeout = self.timeout`, raise `HTTPError` carrying
the upstream status code and body when the status is not 200, and otherwise
return `json.loads(response.body)`. The HTTP client is abstracted by `fetch`;
the first component of the result is the list of outbound requests issued during
the call. -/
def ImageTransformer.explain (t : ImageTransformer) (fetch : HttpRequest → HttpResponse)
    (request : Dict) (_headers : Headers) : List HttpRequest × Except ExplainError Value :=
  match t.explainer_host with
  | none => ([], Except.error ExplainError.notImplementedError)
  | some host =>
    let req : HttpRequest := explainRequest t host request
    let response := fetch req
    if response.code ≠ 200 then
      ([req], Except.error (ExplainError.httpError response.code response.body))
    else
      match jsonLoads response.body with
      | some v => ([req], Except.ok v)
      | none => ([req], Except.error ExplainError.jsonDecodeError)

theorem lookupKey_setKey_self (k : String) (v : Value) (d : Dict) :
    lookupKey k (setKey k v d) = some v := by
  induction d with
  | nil => simp [setKey, lookupKey]
  | cons kv rest ih =>
    obtain ⟨k2, v2⟩ := kv
    by_cases h : k2 = k
    · simp [setKey, lookupKey, h]
    · simp [setKey, lookupKey, h, ih]

theorem lookupKey_setKey_other (k k2 : String) (v : Value) (d : Dict) (h : k2 ≠ k) :
    lookupKey k2 (setKey k v d) = lookupKey k2 d := by
  induction d with
  | nil => simp [setKey, lookupKey, Ne.symm h]
  | cons kv rest ih =>
    obtain ⟨k3, v3⟩ := kv
    by_cases h3 : k3 = k
    · subst h3
      simp [setKey, lookupKey, Ne.symm h]
    · simp [setKey, lookupKey, h3, ih]

theorem mapME_ok_length {α β ε : Type} (f : α → Except ε β) (l : List α) :
    ∀ l2 : List β, mapME f l = Except.ok l2 → l2.length = l.length := by
  induction l with
  | nil =>
    intro l2 h
    simp [mapME] at h
    simp [← h]
  | cons a rest ih =>
    intro l2 h
    cases hf : f a with
    | error e => simp [mapME, hf] at h
    | ok b =>
      cases hm : mapME f rest with
      | error e => simp [mapME, hf, hm] at h
      | ok bs =>
        simp [mapME, hf, hm] at h
        simp [← h, ih bs hm]

theorem mapME_ok_get {α β ε : Type} (f : α → Except ε β) (l : List α) :
    ∀ l2 : List β, mapME f l = Except.ok l2 →
      ∀ i (hi : i < l.length) (hi2 : i < l2.length),
        f (l.get ⟨i, hi⟩) = Except.ok (l2.get ⟨i, hi2⟩) := by
  induction l with
  | nil =>
    intro l2 h i hi hi2
    exact absurd hi (by simp)
  | cons a rest ih =>
    intro l2 h i hi hi2
    cases hf : f a with
    | error e => simp [mapME, hf] at h
    | ok b =>
      cases hm : mapME f rest with
      | error e => simp [mapME, hf, hm] at h
      | ok bs =>
        simp [mapME, hf, hm] at h
        subst h
        cases i with
        | zero => simpa using hf
        | succ j => exact ih bs hm j (by simpa using hi) (by simpa using hi2)

/-- Claim C1: for every Instance whose `data` field is a base64 string encoding
a valid image, `image_transform` decodes it, converts it to a single-channel
tensor whose pixels are scaled into `[0, 1]` by dividing by 255, applies
`(value - 0.1307) / 0.3081` to every element, and replaces the Instance's
`data` field with the resulting nested sequence of numbers, raising nothing. -/
theorem image_transform_normalizes_valid_image
    (imageOpen : List Nat → Option (List (List Nat))) (inst : Dict) (s : String)
    (bytes : List Nat) (img : List (List Nat))
    (hdata : lookupKey "data" inst = some (Value.str s))
    (hdec : b64decode s = some bytes)
    (himg : imageOpen bytes = some img) :
    image_transform imageOpen inst =
      (setKey "data"
        (tensorToValue
          [img.map (fun row =>
            row.map (fun p => ((p : ℚ) / 255 - 1307 / 10000) / (3081 / 10000)))])
        inst, none) := by
  simp [image_transform, hdata, hdec, himg, image_processing]

/-- Witness for C1: a one-byte payload `"AA=="` decoding to the single-pixel
image `[[0]]` is transformed, and its `data` field is replaced with the
normalized tensor. -/
theorem image_transform_normalizes_valid_image_witness :
    b64decode "AA==" = some [0] ∧
    image_transform (fun bs => if bs = [0] then some [[0]] else none)
        [("data", Value.str "AA==")] =
      (setKey "data"
        (tensorToValue
          [[[0]].map (fun row =>
            (row : List Nat).map (fun p => ((p : ℚ) / 255 - 1307 / 10000) / (3081 / 10000)))])
        [("data", Value.str "AA==")], none) :=
  ⟨rfl,
    image_transform_normalizes_valid_image
      (fun bs => if bs = [0] then some [[0]] else none)
      [("data", Value.str "AA==")] "AA==" [0] [[0]] rfl rfl rfl⟩

/-- Claim C4: with no explainer host configured, `explain` raises
`NotImplementedError` whatever the request and headers are, and issues no
outbound HTTP request. -/
theorem explain_not_implemented_without_host
    (t : ImageTransformer) (fetch : HttpRequest → HttpResponse) (request : Dict)
    (headers : Headers) (hhost : t.explainer_host = none) :
    t.explain fetch request headers = ([], Except.error ExplainError.notImplementedError) := by
  simp [ImageTransformer.explain, hhost]

/-- Witness for C4: a transformer constructed with `predictor_host = None` has
no explainer host, and `explain` fails with `NotImplementedError` issuing no
request. -/
theorem explain_not_implemented_without_host_witness :
    (ImageTransformer.init "mnist" none).explainer_host = none ∧
    (ImageTransformer.init "mnist" none).explain (fun _ => ⟨200, "[1]"⟩)
        [("instances", Value.arr [])] none =
      ([], Except.error ExplainError.notImplementedError) :=
  ⟨rfl,
    explain_not_implemented_without_host (ImageTransformer.init "mnist" none)
      (fun _ => ⟨200, "[1]"⟩) [("instances", Value.arr [])] none rfl⟩

/-- Claim C6: the `predictor_host` attribute is unused by the logic — two
transformer states that differ only in `predictor_host` (same model name,
explainer host and timeout) produce identical results, errors and outbound
requests for `explain`, `preprocess` and `postprocess`. -/
theorem predictor_host_unused
    (t : ImageTransformer) (p : Option String) (fetch : HttpRequest → HttpResponse)
    (request : Dict) (headers : Headers)
    (imageOpen : List Nat → Option (List (List Nat))) (inputs : Dict) (x : Dict) :
    ({ t with predictor_host := p } : ImageTransformer).explain fetch request headers =
        t.explain fetch request headers ∧
    ({ t with predictor_host := p } : ImageTransformer).preprocess imageOpen inputs headers =
        t.preprocess imageOpen inputs headers ∧
    ({ t with predictor_host := p } : ImageTransformer).postprocess x = t.postprocess x :=
  ⟨rfl, rfl, rfl⟩

/-- Claim C8: `postprocess` is the identity — it returns its input unchanged,
for every transformer state and every input. -/
theorem postprocess_identity (t : ImageTransformer) (x : Dict) :
    t.postprocess x = x :=
  rfl

/-- Claim C9: with an explainer host configured at construction, `explain`
issues exactly one HTTP POST to `http://{explainer_host}/v1/models/{model_name}:explain`
whose body is the JSON serialization of the request, with a request timeout of
exactly 100, and no retry. -/
theorem explain_issues_single_post
    (name host : String) (fetch : HttpRequest → HttpResponse) (request : Dict)
    (headers : Headers) :
    ((ImageTransformer.init name (some host)).explain fetch request headers).1 =
      [{ url := "http://" ++ host ++ "/v1/models/" ++ name ++ ":explain"
         method := "POST"
         body := jsonDumps (Value.obj request)
         request_timeout := 100 }] := by
  simp only [ImageTransformer.explain, ImageTransformer.init, explainRequest,
    EXPLAINER_URL_FORMAT]
  split
  · rfl
  · split <;> rfl

/-- Claim C10: `explain` ignores its `headers` parameter — for any two header
values the whole outcome (outbound requests and result or error) is identical. -/
theorem explain_ignores_headers
    (t : ImageTransformer) (fetch : HttpRequest → HttpResponse) (request : Dict)
    (h1 h2 : Headers) :
    t.explain fetch request h1 = t.explain fetch request h2 :=
  rfl

/-- Claim C2: for a Request whose `instances` value is a list of N instances
that all transform successfully, `preprocess` returns a mapping with the single
key `instances` whose value has exactly N elements, the i-th being the
normalizer applied to the i-th input instance. -/
theorem preprocess_maps_instances_in_order
    (t : ImageTransformer) (imageOpen : List Nat → Option (List (List Nat)))
    (inputs : Dict) (headers : Headers) (insts outs : List Value)
    (hinst : lookupKey "instances" inputs = some (Value.arr insts))
    (hmap : mapME (transformValue imageOpen) insts = Except.ok outs) :
    t.preprocess imageOpen inputs headers = Except.ok [("instances", Value.arr outs)] ∧
    outs.length = insts.length ∧
    ∀ i (hi : i < insts.length) (hi2 : i < outs.length),
      transformValue imageOpen (insts.get ⟨i, hi⟩) = Except.ok (outs.get ⟨i, hi2⟩) := by
  refine ⟨?_, mapME_ok_length _ _ _ hmap, mapME_ok_get _ _ _ hmap⟩
  simp [ImageTransformer.preprocess, hinst, hmap]

/-- Witness for C2: a two-instance request is preprocessed into a two-element
`instances` list, in order, each with its `data` field normalized. -/
theorem preprocess_maps_instances_in_order_witness :
    (ImageTransformer.init "mnist" (some "h")).preprocess
        (fun bs => if bs = [0] then some [[0]] else if bs = [0, 1] then some [[0, 1]] else none)
        [("instances", Value.arr
          [Value.obj [("data", Value.str "AA==")],
           Value.obj [("data", Value.str "AAE="), ("id", Value.num 7)]])] none =
      Except.ok [("instances", Value.arr
        [Value.obj [("data", tensorToValue (image_processing [[0]]))],
         Value.obj [("data", tensorToValue (image_processing [[0, 1]])), ("id", Value.num 7)]])] :=
  (preprocess_maps_instances_in_order (ImageTransformer.init "mnist" (some "h"))
    (fun bs => if bs = [0] then some [[0]] else if bs = [0, 1] then some [[0, 1]] else none)
    [("instances", Value.arr
      [Value.obj [("data", Value.str "AA==")],
       Value.obj [("data", Value.str "AAE="), ("id", Value.num 7)]])] none
    [Value.obj [("data", Value.str "AA==")],
     Value.obj [("data", Value.str "AAE="), ("id", Value.num 7)]]
    [Value.obj [("data", tensorToValue (image_processing [[0]]))],
     Value.obj [("data", tensorToValue (image_processing [[0, 1]])), ("id", Value.num 7)]]
    rfl rfl).1

/-- Claim C3: with an explainer host configured, `explain` returns the parsed
JSON body of the upstream response exactly when the upstream status is 200, and
for a non-200 status raises an HTTP error carrying that response's status code
and body. -/
theorem explain_result_matches_upstream_status
    (t : ImageTransformer) (host : String) (fetch : HttpRequest → HttpResponse)
    (request : Dict) (headers : Headers)
    (hhost : t.explainer_host = some host) :
    ((fetch (explainRequest t host request)).code = 200 →
      ∀ v, jsonLoads (fetch (explainRequest t host request)).body = some v →
        (t.explain fetch request headers).2 = Except.ok v) ∧
    ((fetch (explainRequest t host request)).code ≠ 200 →
      (t.explain fetch request headers).2 =
        Except.error (ExplainError.httpError (fetch (explainRequest t host request)).code
          (fetch (explainRequest t host request)).body)) := by
  constructor
  · intro hc v hv
    simp [ImageTransformer.explain, hhost, hc, hv]
  · intro hc
    simp [ImageTransformer.explain, hhost, hc]

/-- Witness for C3: a mock upstream answering 200 with body
`{"explanations": [1, 2, 3]}` yields `Except.ok` of that parsed mapping, and a
mock upstream answering 500 with body `"server error"` yields an HTTP error
carrying code 500 and body `"server error"`. -/
theorem explain_result_matches_upstream_status_witness :
    ((ImageTransformer.init "mnist" (some "h")).explain
        (fun _ => ⟨200, "\x7b\"explanations\": [1, 2, 3]\x7d"⟩) [] none).2 =
      Except.ok (Value.obj [("explanations", Value.arr [Value.num 1, Value.num 2, Value.num 3])]) ∧
    ((ImageTransformer.init "mnist" (some "h")).explain
        (fun _ => ⟨500, "server error"⟩) [] none).2 =
      Except.error (ExplainError.httpError 500 "server error") :=
  ⟨(explain_result_matches_upstream_status (ImageTransformer.init "mnist" (some "h")) "h"
      (fun _ => ⟨200, "\x7b\"explanations\": [1, 2, 3]\x7d"⟩) [] none rfl).1 rfl
      (Value.obj [("explanations", Value.arr [Value.num 1, Value.num 2, Value.num 3])]) rfl,
   (explain_result_matches_upstream_status (ImageTransformer.init "mnist" (some "h")) "h"
      (fun _ => ⟨500, "server error"⟩) [] none rfl).2 (by decide)⟩

/-- Claim C5: when the `data` field holds malformed base64, or base64 whose
decoded bytes are not a parseable image, `image_transform` raises a decode
error and the instance — the `data` field and every other field — is returned
unchanged. -/
theorem image_transform_error_leaves_instance_unchanged
    (imageOpen : List Nat → Option (List (List Nat))) (inst : Dict) (s : String)
    (hdata : lookupKey "data" inst = some (Value.str s)) :
    (b64decode s = none →
      image_transform imageOpen inst = (inst, some TransformError.decodeError)) ∧
    (∀ bytes, b64decode s = some bytes → imageOpen bytes = none →
      image_transform imageOpen inst = (inst, some TransformError.imageError)) := by
  constructor
  · intro hdec
    simp [image_transform, hdata, hdec]
  · intro bytes hdec himg
    simp [image_transform, hdata, hdec, himg]

/-- Witness for C5: the malformed payload `"not-base64!!"` makes
`image_transform` fail with a decode error leaving both fields of the instance
unchanged, and a well-formed payload whose bytes are not a parseable image
fails with an image error, also leaving the instance unchanged. -/
theorem image_transform_error_leaves_instance_unchanged_witness :
    b64decode "not-base64!!" = none ∧
    image_transform (fun _ => none)
        [("data", Value.str "not-base64!!"), ("id", Value.num 3)] =
      ([("data", Value.str "not-base64!!"), ("id", Value.num 3)],
        some TransformError.decodeError) ∧
    image_transform (fun _ => none) [("data", Value.str "AA==")] =
      ([("data", Value.str "AA==")], some TransformError.imageError) :=
  ⟨rfl,
   (image_transform_error_leaves_instance_unchanged (fun _ => none)
      [("data", Value.str "not-base64!!"), ("id", Value.num 3)] "not-base64!!" rfl).1 rfl,
   (image_transform_error_leaves_instance_unchanged (fun _ => none)
      [("data", Value.str "AA==")] "AA==" rfl).2 [0] rfl rfl⟩

/-- Claim C7: on valid image data the normalizer replaces only the `data`
field — every other key of the instance is unchanged in the output — and no key
other than `data` is interpreted: any instance with the same `data` string is
transformed to the same new `data` value with no error. -/
theorem image_transform_touches_only_data
    (imageOpen : List Nat → Option (List (List Nat))) (inst : Dict) (s : String)
    (bytes : List Nat) (img : List (List Nat))
    (hdata : lookupKey "data" inst = some (Value.str s))
    (hdec : b64decode s = some bytes)
    (himg : imageOpen bytes = some img) :
    (∀ k, k ≠ "data" → lookupKey k (image_transform imageOpen inst).1 = lookupKey k inst) ∧
    lookupKey "data" (image_transform imageOpen inst).1 =
      some (tensorToValue (image_processing img)) ∧
    (∀ inst2 : Dict, lookupKey "data" inst2 = some (Value.str s) →
      image_transform imageOpen inst2 =
        (setKey "data" (tensorToValue (image_processing img)) inst2, none)) := by
  refine ⟨?_, ?_, ?_⟩
  · intro k hk
    simp [image_transform, hdata, hdec, himg, lookupKey_setKey_other _ _ _ _ hk]
  · simp [image_transform, hdata, hdec, himg, lookupKey_setKey_self]
  · intro inst2 h2
    simp [image_transform, h2, hdec, himg]

/-- Witness for C7: transforming an instance with an extra `id` field leaves
`id` unchanged while `data` holds the normalized tensor. -/
theorem image_transform_touches_only_data_witness :
    lookupKey "id" (image_transform (fun bs => if bs = [0] then some [[0]] else none)
        [("data", Value.str "AA=="), ("id", Value.num 3)]).1 = some (Value.num 3) ∧
    lookupKey "data" (image_transform (fun bs => if bs = [0] then some [[0]] else none)
        [("data", Value.str "AA=="), ("id", Value.num 3)]).1 =
      some (tensorToValue (image_processing [[0]])) := by
  have h := image_transform_touches_only_data
    (fun bs => if bs = [0] then some [[0]] else none)
    [("data", Value.str "AA=="), ("id", Value.num 3)] "AA==" [0] [[0]] rfl rfl rfl
  exact ⟨(h.1 "id" (by decide)).trans rfl, h.2.1⟩
